import Mathlib

/-!
Verification development for the transfer execution engine of the
`remote-signed-s3` client library.

This file gives a shallow embedding, in Lean, of the code paths that the
specification's claims are about:

* the HTTP Runner's retry / redirect loop (`src/src/runner.js`, `Runner.run`);
* the Transfer Preparer's single- and multi-part preparation and the
  compression bookkeeping (`src/src/client.js`);
* the Upload Executor's part loop (`src/src/client.js`, `Client.runUpload`)
  and the schema validation guarding it (`src/src/schemas.js`);
* the Download Executor's header validation and end-of-download integrity
  checks (`src/lib/client.js`, `Client.runDownload`).

Machine numbers from the JavaScript source are modelled as `Nat`/`Int`
(every quantity involved stays far below 2^53, where JS number arithmetic
is exact); JS `undefined`/absent values are modelled as `Option`;
fallible code returns `Except`.  Byte sequences are modelled as
`List Nat`, and cryptographic digests and compression are abstracted as
explicit function parameters, since the claims under study only relate
digests of designated byte ranges, never the internals of SHA-256 or gzip.
-/

/-! ## HTTP Runner (`src/src/runner.js`)

`Runner.run` (lines 55–127) is a `for ( ; current < maxRetries; current++)`
loop around `runOnce`.  Before the loop, a raw-stream body forces
`current = this.maxRetries - 1` and `followRedirect = false` (lines 64–68).
Inside the loop, the attempt result is retried exactly when
`result.statusCode >= 500 && current !== this.maxRetries - 1` (line 83);
any other result leaves the loop (possibly via the redirect branch, which
is only entered when `followRedirect` is truthy).

The loop counter is modelled as `Int` because JavaScript numbers are
signed: with `maxRetries = 0` and a raw-stream body the source really runs
one attempt at counter value `-1` (`-1 < 0` holds).  The single-attempt
function `runOnce` is abstracted as an oracle `Int → Nat` giving the
response status code of the attempt executed at each counter value; per
the Runner's own result schema these codes lie in `[100, 599]`, so
`500 ≤ status` is exactly "status is in the 5xx range".
-/

/-- The four body shapes accepted by `Runner.runOnce` (runner.js lines
129–168): a string, a `Buffer`, a raw readable stream, or a zero-argument
factory returning a fresh stream. -/
inductive Body
  | str
  | buffer
  | rawStream
  | factory
deriving DecidableEq, Repr

/-- The raw-stream test of runner.js line 64:
`body instanceof stream.Readable || typeof body.pipe === 'function'`.
Strings, buffers and factory functions have no `pipe` method. -/
def Body.isRawStream : Body → Bool
  | .rawStream => true
  | _ => false

/-- The retry loop of `Runner.run` (runner.js lines 81–126), with
structural fuel.  `runAttempts` below always supplies fuel
`(maxRetries - current).toNat`, which is exactly the number of loop
iterations the source's `for` loop can still perform, so exhausted fuel
coincides with the loop condition `current < maxRetries` failing.
Returns the list of counter values at which `runOnce` was invoked,
and the status code of the returned result (`none` when the loop body
never produced a result, in which case the source returns `undefined`). -/
def runLoopAux (oracle : Int → Nat) (maxRetries : Int) :
    Int → Nat → List Int × Option Nat
  | _, 0 => ([], none)
  | current, fuel + 1 =>
    if current < maxRetries then
      let s := oracle current
      if 500 ≤ s ∧ current ≠ maxRetries - 1 then
        let rest := runLoopAux oracle maxRetries (current + 1) fuel
        (current :: rest.1, rest.2)
      else
        ([current], some s)
    else
      ([], none)

/-- The retry loop of `Runner.run`, entered at counter value `current`. -/
def runAttempts (oracle : Int → Nat) (maxRetries current : Int) :
    List Int × Option Nat :=
  runLoopAux oracle maxRetries current (maxRetries - current).toNat

/-- `Runner.run` (runner.js lines 55–127): the pre-loop adjustment for
raw-stream bodies (lines 64–68) followed by the retry loop.  The second
component is the effective `followRedirect` flag consulted by the
redirect branch (line 88). -/
def Runner.run (oracle : Int → Nat) (maxRetries : Int) (body : Body)
    (followRedirect : Bool) : (List Int × Option Nat) × Bool :=
  let current : Int := if body.isRawStream then maxRetries - 1 else 0
  let fr := if body.isRawStream then false else followRedirect
  (runAttempts oracle maxRetries current, fr)

/-- The redirect decision of `Runner.run` (runner.js lines 88–123): a hop
is followed only when redirect-following is enabled, the status is 301,
302 or 303, the method is GET or HEAD, a `Location` header is present,
and the hop budget is not exhausted; every other case returns the
response verbatim. -/
def wouldFollowRedirect (followRedirect : Bool) (statusCode : Nat)
    (method : String) (location : Option String)
    (currentRedirect maxRedirects : Int) : Bool :=
  followRedirect &&
    (statusCode == 301 || statusCode == 302 || statusCode == 303) &&
    (method == "GET" || method == "HEAD") &&
    location.isSome &&
    (currentRedirect < maxRedirects)

/-- Scenario C endpoint: status 500 on the first four attempts, 200 on
the fifth. -/
def scenarioC : Int → Nat := fun i => if i < 4 then 500 else 200

/-! ### Retry-loop lemmas -/

/-- The list of consecutive integers `[c, c+1, ..., j]` (empty when `j < c`). -/
def intRangeI (c j : Int) : List Int :=
  (List.range (j - c + 1).toNat).map (fun (i : Nat) => c + (i : Int))

lemma intRangeI_self (c : Int) : intRangeI c c = [c] := by
  unfold intRangeI
  have h1 : (c - c + 1).toNat = 1 := by omega
  rw [h1]
  norm_num [List.range_succ]

lemma intRangeI_cons (c j : Int) (h : c ≤ j) :
    intRangeI c j = c :: intRangeI (c + 1) j := by
  unfold intRangeI
  have h1 : (j - c + 1).toNat = (j - (c + 1) + 1).toNat + 1 := by omega
  rw [h1, List.range_succ_eq_map, List.map_cons, List.map_map]
  refine congrArg₂ _ (by simp) ?_
  refine List.map_congr_left ?_
  intro a _
  simp only [Function.comp_apply, Nat.succ_eq_add_one]
  push_cast
  ring

lemma intRangeI_length (c j : Int) :
    (intRangeI c j).length = (j - c + 1).toNat := by
  simp [intRangeI]

/-- Characterization of the retry loop entered at counter `c < maxRetries`
with sufficient fuel: it invokes `runOnce` at the consecutive counter
values `c, c+1, ..., j` for some `j`, returns the status of attempt `j`,
every attempt strictly before `j` had a 5xx status and was not the last
allowed attempt, and a 5xx status is only ever returned from the last
allowed attempt. -/
lemma runLoopAux_char (oracle : Int → Nat) (mr : Int) :
    ∀ (fuel : Nat) (c : Int), c < mr → (mr - c).toNat ≤ fuel →
    ∃ j : Int, c ≤ j ∧ j < mr ∧
      runLoopAux oracle mr c fuel = (intRangeI c j, some (oracle j)) ∧
      (∀ i : Int, c ≤ i → i < j → 500 ≤ oracle i ∧ i ≠ mr - 1) ∧
      (500 ≤ oracle j → j = mr - 1) := by
  intro fuel
  induction fuel with
  | zero => intro c hc hf; omega
  | succ fuel ih =>
    intro c hc hf
    by_cases hcond : 500 ≤ oracle c ∧ c ≠ mr - 1
    · have hc1 : c + 1 < mr := by omega
      obtain ⟨j, h1, h2, h3, h4, h5⟩ := ih (c + 1) hc1 (by omega)
      refine ⟨j, by omega, h2, ?_, ?_, h5⟩
      · rw [runLoopAux, if_pos hc, if_pos hcond, h3, intRangeI_cons c j (by omega)]
      · intro i hi hij
        rcases eq_or_lt_of_le hi with heq | hlt
        · exact heq ▸ hcond
        · exact h4 i (by omega) hij
    · refine ⟨c, le_refl c, hc, ?_, ?_, ?_⟩
      · rw [runLoopAux, if_pos hc, if_neg hcond, intRangeI_self]
      · intro i hi hij; omega
      · intro h500
        by_contra hne
        exact hcond ⟨h500, hne⟩

/-- The retry-policy contract of `Runner.run` for a replayable
(factory) body: `runOnce` is invoked at the consecutive attempt indices
`0, ..., j` for some `j`; at most `maxRetries` invocations happen; the
result returned is attempt `j`'s status; attempt `i + 1` is made exactly
when attempt `i` had a 5xx status and `i` was not the last allowed
attempt (both directions stated); and a 5xx status is returned only from
the last allowed attempt. -/
def runnerRetryPolicy (oracle : Int → Nat) (maxRetries : Int) (fr : Bool) : Prop :=
  ∃ j : Int, 0 ≤ j ∧ j < maxRetries ∧
    (Runner.run oracle maxRetries Body.factory fr).1 =
      (intRangeI 0 j, some (oracle j)) ∧
    (intRangeI 0 j).length ≤ maxRetries.toNat ∧
    (∀ i : Int, 0 ≤ i → i < j → 500 ≤ oracle i ∧ i ≠ maxRetries - 1) ∧
    (∀ i : Int, 0 ≤ i → i ≤ j → 500 ≤ oracle i → i ≠ maxRetries - 1 → i < j) ∧
    (500 ≤ oracle j → j = maxRetries - 1)

/-- C1: for every request run with a replayable body, the single-attempt
function is invoked at most `maxRetries` times; a further attempt is made
exactly when the previous attempt's status is in the 5xx range and this
was not the last allowed attempt; any non-5xx result is returned
immediately without retry.  In particular, against an endpoint answering
500 on the first four attempts and 200 on the fifth, a run with
`maxRetries = 5` performs exactly the 5 attempts `0,1,2,3,4` and returns
the 200 result.  (Source: `src/src/runner.js` lines 79–127.) -/
theorem runner_retry_policy (oracle : Int → Nat) (maxRetries : Int)
    (hmr : 0 < maxRetries) (fr : Bool) :
    runnerRetryPolicy oracle maxRetries fr ∧
    Runner.run scenarioC 5 Body.factory true = (([0, 1, 2, 3, 4], some 200), true) := by
  constructor
  · obtain ⟨j, h1, h2, h3, h4, h5⟩ :=
      runLoopAux_char oracle maxRetries (maxRetries - 0).toNat 0 hmr (le_refl _)
    refine ⟨j, h1, h2, h3, ?_, h4, ?_, h5⟩
    · rw [intRangeI_length]; omega
    · intro i hi hij h500 hne
      rcases eq_or_lt_of_le hij with heq | hlt
      · exact absurd (h5 (heq ▸ h500)) (heq ▸ hne)
      · exact hlt
  · decide

/-- Witness for C1 at Scenario C: `maxRetries = 5` against an endpoint
that answers 500 four times and then 200. -/
theorem runner_retry_policy_witness :
    (0 : Int) < 5 ∧
    (runnerRetryPolicy scenarioC 5 true ∧
      Runner.run scenarioC 5 Body.factory true = (([0, 1, 2, 3, 4], some 200), true)) :=
  ⟨by decide, runner_retry_policy scenarioC 5 (by decide) true⟩

/-- C2: a run whose body is a raw readable stream invokes the
single-attempt function exactly once (at the single counter value
`maxRetries - 1`) and returns that attempt's result whatever its status
— no retry even on 5xx — and redirect following is disabled for that
call (the effective flag is `false`, so no redirect is ever followed).
Supplying a factory body instead runs the full retry loop from attempt 0,
restoring the whole retry budget.  (Source: `src/src/runner.js` lines
64–68 and 81–87.) -/
theorem raw_stream_single_attempt (oracle : Int → Nat) (maxRetries : Int) (fr : Bool) :
    Runner.run oracle maxRetries Body.rawStream fr =
      (([maxRetries - 1], some (oracle (maxRetries - 1))), false) ∧
    (∀ (statusCode : Nat) (method : String) (location : Option String)
        (currentRedirect maxRedirects : Int),
      wouldFollowRedirect (Runner.run oracle maxRetries Body.rawStream fr).2
        statusCode method location currentRedirect maxRedirects = false) ∧
    (Runner.run oracle maxRetries Body.factory fr).1 = runAttempts oracle maxRetries 0 := by
  have hrun : Runner.run oracle maxRetries Body.rawStream fr =
      (([maxRetries - 1], some (oracle (maxRetries - 1))), false) := by
    show (runAttempts oracle maxRetries (maxRetries - 1), false) = _
    unfold runAttempts
    have h1 : (maxRetries - (maxRetries - 1)).toNat = 1 := by omega
    rw [h1, runLoopAux, if_pos (by omega), if_neg (by simp)]
  refine ⟨hrun, ?_, rfl⟩
  intro s m l cr mrd
  rw [hrun]
  simp [wouldFollowRedirect]

/-! ## Transfer Preparer (`src/src/client.js`)

The preparer reads a file from disk.  A file's content is modelled as a
`List Nat` of its bytes; the SHA-256 digest is abstracted as an explicit
function parameter `hash : List Nat → String` applied to exactly the
bytes the source feeds into the corresponding `crypto.createHash`
object, and gzip as a function parameter `gzip : List Nat → List Nat`.
-/

/-- One part descriptor as pushed by `__prepareMultipartUpload`
(client.js line 132): per-part digest, byte count actually read, and
starting offset. -/
structure PartDesc where
  sha256 : String
  size : Nat
  start : Nat
deriving DecidableEq, Repr

/-- `partcount = Math.ceil(filestats.size / partsize)` (client.js line
95); for positive `p` this is exactly `(s + p - 1) / p` in `Nat`
arithmetic (all sizes involved are far below 2^53, so the JS float
computation is exact). -/
def partcount (s p : Nat) : Nat := (s + p - 1) / p

/-- The bytes delivered by `fs.createReadStream(filename, {start, end})`
for part `i`: the range `[i*p, i*p + p - 1]` inclusive, truncated at end
of file — i.e. drop `i*p` bytes then take at most `p`. -/
def partSlice (data : List Nat) (p i : Nat) : List Nat :=
  (data.drop (i * p)).take p

/-- The part-descriptor list built by the part loop of
`__prepareMultipartUpload` (client.js lines 102–136): for each
`part < partcount` in order, `start = part * partsize`, the part digest
is the digest of exactly the streamed range, and `currentPartsize` ends
up as the length of that range. -/
def prepareParts (hash : List Nat → String) (data : List Nat) (p : Nat) :
    List PartDesc :=
  (List.range (partcount data.length p)).map (fun i =>
    { sha256 := hash (partSlice data p i)
      size := (partSlice data p i).length
      start := i * p })

lemma partcount_mul_ge (s p : Nat) (hp : 0 < p) : s ≤ p * partcount s p := by
  unfold partcount
  rcases Nat.eq_zero_or_pos s with rfl | hs
  · simp
  · have h1 := Nat.div_add_mod (s + p - 1) p
    have h2 := Nat.mod_lt (s + p - 1) hp
    set q := (s + p - 1) / p with hq
    set r := (s + p - 1) % p with hr
    omega

lemma partcount_pred_mul_lt (s p : Nat) (hp : 0 < p) (hs : 0 < s) :
    p * (partcount s p - 1) < s := by
  unfold partcount
  have h1 := Nat.div_add_mod (s + p - 1) p
  have h2 := Nat.mod_lt (s + p - 1) hp
  have h3 : 1 ≤ (s + p - 1) / p := by
    rw [Nat.le_div_iff_mul_le hp]; omega
  set q := (s + p - 1) / p with hq
  set r := (s + p - 1) % p with hr
  have hq1 : q - 1 + 1 = q := by omega
  have h4 : p * (q - 1) + p = p * q := by
    calc p * (q - 1) + p = p * (q - 1 + 1) := by ring
    _ = p * q := by rw [hq1]
  omega

lemma partcount_pos (s p : Nat) (hp : 0 < p) (hs : 0 < s) : 0 < partcount s p := by
  unfold partcount
  have h3 : 1 ≤ (s + p - 1) / p := by
    rw [Nat.le_div_iff_mul_le hp]; omega
  omega

lemma partSlice_length (data : List Nat) (p i : Nat) :
    (partSlice data p i).length = min p (data.length - i * p) := by
  simp [partSlice]

/-- Concatenating the first `n` part ranges reconstructs the first
`n * p` bytes of the file. -/
lemma join_slices_take (data : List Nat) (p : Nat) :
    ∀ n, ((List.range n).map (fun i => partSlice data p i)).flatten =
      data.take (n * p) := by
  intro n
  induction n with
  | zero => simp
  | succ n ih =>
    rw [List.range_succ, List.map_append, List.flatten_append]
    rw [ih]
    simp only [List.map_cons, List.map_nil, List.flatten_cons, List.flatten_nil,
      List.append_nil]
    rw [partSlice, Nat.succ_mul, List.take_add]

/-- Concatenating all `partcount` part ranges reconstructs the whole
file: the ranges tile `[0, s)` with no gaps or overlaps. -/
lemma join_slices (data : List Nat) (p : Nat) (hp : 0 < p) :
    ((List.range (partcount data.length p)).map (fun i => partSlice data p i)).flatten =
      data := by
  rw [join_slices_take]
  refine List.take_of_length_le ?_
  have h := partcount_mul_ge data.length p hp
  rw [Nat.mul_comm] at h
  exact h

/-- The "at least 2 parts" guard of `__prepareMultipartUpload`
(client.js lines 98–100): the source evaluates `partsize/size < 2`,
where `size` is the byte-count accumulator initialised to `0` three
lines earlier and not yet incremented — so the divisor is always `0` at
this program point.  In JavaScript `x/0` is `Infinity` for `x > 0` (and
`NaN` for `0/0`), and both `Infinity < 2` and `NaN < 2` are `false`; for
a positive divisor the float comparison agrees with the exact rational
one, i.e. with `partsize < 2 * size`. -/
def fewPartsGuard (partsize size : Nat) : Bool :=
  if size = 0 then false else decide (partsize < 2 * size)

/-- The resolution value of `__prepareMultipartUpload` (client.js line
155). -/
structure MultipartPrep where
  filename : String
  sha256 : String
  size : Nat
  parts : List PartDesc
deriving DecidableEq, Repr

/-- `Client.__prepareMultipartUpload` (client.js lines 86–157), for a
file whose stats do not change during the read (the re-stat checks are
modelled separately, see `multipartFinishCheck`).  The whole-file digest
is updated chunk by chunk across all part streams, i.e. over the
concatenation of the part ranges, and the `size` accumulator sums their
lengths. -/
def Client.prepareMultipartUpload (hash : List Nat → String)
    (filename : String) (data : List Nat) (p : Nat) :
    Except String MultipartPrep :=
  if fewPartsGuard p 0 then
    .error "Multipart upload must have at least 2 parts"
  else
    let streamed := ((List.range (partcount data.length p)).map
      (fun i => partSlice data p i)).flatten
    .ok { filename := filename
          sha256 := hash streamed
          size := streamed.length
          parts := prepareParts hash data p }

/-- The resolution value of `__prepareSinglepartUpload` (client.js lines
76–80): whole-file digest and byte count. -/
structure SinglepartPrep where
  filename : String
  sha256 : String
  size : Nat
deriving DecidableEq, Repr

/-- `Client.__prepareSinglepartUpload` (client.js lines 50–84), for a
file whose stats do not change during the read. -/
def Client.prepareSinglepartUpload (hash : List Nat → String)
    (filename : String) (data : List Nat) : SinglepartPrep :=
  { filename := filename, sha256 := hash data, size := data.length }

lemma prepareParts_getElem (hash : List Nat → String) (data : List Nat) (p i : Nat)
    (h : i < (prepareParts hash data p).length) :
    (prepareParts hash data p)[i] =
      { sha256 := hash (partSlice data p i)
        size := (partSlice data p i).length
        start := i * p } := by
  simp [prepareParts]

/-- The partition-geometry contract for `prepareParts` on a file of `s`
bytes with part size `p`: exactly `ceil(s/p)` descriptors, in order; the
`i`-th starts at byte `i*p`; every part except the last has size exactly
`p`; every part has size in `(0, p]` (so in particular the last does);
each part's byte range ends at `min ((i+1)*p) s`, so consecutive ranges
abut and the last ends at `s`; and the concatenation of the part byte
ranges is exactly the file — no gaps, no overlaps. -/
def partitionGeometry (hash : List Nat → String) (data : List Nat) (p : Nat) : Prop :=
  (prepareParts hash data p).length = partcount data.length p ∧
  (∀ (i : Nat) (h : i < (prepareParts hash data p).length),
    (prepareParts hash data p)[i].start = i * p) ∧
  (∀ (i : Nat) (h : i < (prepareParts hash data p).length),
    i + 1 < (prepareParts hash data p).length →
    (prepareParts hash data p)[i].size = p) ∧
  (∀ (i : Nat) (h : i < (prepareParts hash data p).length),
    0 < (prepareParts hash data p)[i].size ∧
    (prepareParts hash data p)[i].size ≤ p) ∧
  (∀ (i : Nat) (h : i < (prepareParts hash data p).length),
    (prepareParts hash data p)[i].start + (prepareParts hash data p)[i].size =
      min ((i + 1) * p) data.length) ∧
  ((List.range (partcount data.length p)).map (fun i => partSlice data p i)).flatten = data

/-- C3: for every file of size `s > 0` and every part size `p` whose
configuration yields at least 2 parts, multipart preparation produces
exactly `ceil(s/p)` part descriptors in order, the `i`-th (0-based)
starting at offset `i*p`, every part except the last of size exactly
`p`, the last of size in `(0, p]`, and the parts' byte ranges exactly
tile `[0, s)` with no gaps or overlaps.  (Source: `src/src/client.js`
lines 86–157.) -/
theorem multipart_partitioning (hash : List Nat → String) (data : List Nat) (p : Nat)
    (hp : 0 < p) (hs : 0 < data.length) (hmp : 2 ≤ partcount data.length p) :
    partitionGeometry hash data p := by
  have hlen : (prepareParts hash data p).length = partcount data.length p := by
    simp [prepareParts]
  have hip : ∀ i : Nat, i < partcount data.length p → i * p < data.length := by
    intro i hi
    have h1 : i ≤ partcount data.length p - 1 := by omega
    have h2 : i * p ≤ (partcount data.length p - 1) * p := Nat.mul_le_mul_right p h1
    have h3 : (partcount data.length p - 1) * p < data.length := by
      rw [Nat.mul_comm]; exact partcount_pred_mul_lt data.length p hp hs
    omega
  refine ⟨hlen, ?_, ?_, ?_, ?_, join_slices data p hp⟩
  · intro i h
    rw [prepareParts_getElem hash data p i h]
  · intro i h hnext
    rw [prepareParts_getElem hash data p i h]
    rw [hlen] at h hnext
    have h2 : (i + 1) * p ≤ (partcount data.length p - 1) * p :=
      Nat.mul_le_mul_right p (by omega)
    have h3 : (partcount data.length p - 1) * p < data.length := by
      rw [Nat.mul_comm]; exact partcount_pred_mul_lt data.length p hp hs
    have h4 : i * p + p = (i + 1) * p := by ring
    simp only [partSlice_length]
    omega
  · intro i h
    rw [prepareParts_getElem hash data p i h]
    rw [hlen] at h
    have h1 := hip i h
    simp only [partSlice_length]
    omega
  · intro i h
    rw [prepareParts_getElem hash data p i h]
    rw [hlen] at h
    have h1 := hip i h
    have h4 : i * p + p = (i + 1) * p := by ring
    simp only [partSlice_length]
    omega

/-- Witness for C3: a 10-byte file with part size 4 (3 parts). -/
theorem multipart_partitioning_witness :
    (0 < 4 ∧ 0 < (List.range 10).length ∧ 2 ≤ partcount (List.range 10).length 4) ∧
    partitionGeometry (fun _x => "h") (List.range 10) 4 :=
  ⟨⟨by decide, by decide, by decide⟩,
    multipart_partitioning (fun _x => "h") (List.range 10) 4 (by decide) (by decide)
      (by decide)⟩

/-- C5 (code bug): multipart preparation is supposed to reject
configurations yielding fewer than 2 parts, and its error message says
so, but the guard `partsize/size < 2` (client.js line 98) divides by the
`size` accumulator, which is still `0` at that point; the quotient is
`Infinity`, the comparison is `false`, and the guard can never fire for
any part size.  A 4-byte file with part size 4 — `partcount = 1` — is
happily given a one-part multipart descriptor instead of an error. -/
theorem multipart_two_part_guard_never_fires :
    partcount (List.range 4).length 4 = 1 ∧
    fewPartsGuard 4 0 = false ∧
    Client.prepareMultipartUpload (fun _x => "h") "f" (List.range 4) 4 =
      .ok { filename := "f", sha256 := "h", size := 4,
            parts := [{ sha256 := "h", size := 4, start := 0 }] } ∧
    (∀ p : Nat, fewPartsGuard p 0 = false) :=
  ⟨by decide, by decide, rfl, fun p => by simp [fewPartsGuard]⟩

/-! ### Concurrent-modification re-stat checks (C8)

After the digest-computing read pass both preparation paths re-stat the
file and compare size, mtime and inode against the stat taken before the
read.  The two paths deliver the outcome very differently:

* `__prepareSinglepartUpload` (client.js lines 64–82) runs the checks
  inside the promise executor's `end` listener, where `reject` is in
  scope — the mismatch branches genuinely reject the returned promise
  with the detected-mismatch error.  (Its first branch, comparing the
  accumulated byte count with the *before* stat, `throw`s inside the
  async event listener; that rejection is unobserved and the outer
  promise never settles.)
* `__prepareMultipartUpload` (client.js lines 145–157) runs the same
  checks at the top level of the async method, where **no binding named
  `reject` exists** — evaluating `reject(new Error(...))` raises a
  `ReferenceError`, so the promise is rejected with a `ReferenceError`
  about the identifier `reject`, not with the detected mismatch.
-/

/-- The fields of an `fs.stat` result compared by the re-stat checks:
`size`, `mtime.getTime()` and `ino`. -/
structure FileStats where
  size : Nat
  mtimeMs : Int
  ino : Nat
deriving DecidableEq, Repr

/-- How a preparation promise settles: resolved with a value, rejected
with the given error message, never settled (an unobserved rejection
inside a stream callback), or rejected with a `ReferenceError` for an
identifier that is not in scope. -/
inductive PrepOutcome (α : Type) where
  | ok (value : α)
  | rejected (msg : String)
  | unsettled
  | referenceError (ident : String)
deriving DecidableEq, Repr

/-- The end-of-read checks of `__prepareSinglepartUpload` (client.js
lines 64–82), applied to the stat taken before the read, the re-stat
afterwards and the accumulated byte count. -/
def singlepartFinishCheck {α : Type} (before after : FileStats)
    (computedSize : Nat) (result : α) : PrepOutcome α :=
  if computedSize ≠ before.size then .unsettled
  else if after.size ≠ before.size then .rejected "File changed size during preperation"
  else if after.mtimeMs ≠ before.mtimeMs then .rejected "File was modified during preperation"
  else if after.ino ≠ before.ino then .rejected "File has changed inodes"
  else .ok result

/-- The end-of-read checks of `__prepareMultipartUpload` (client.js
lines 145–157).  The first branch `throw`s at the top level of the async
method, which rejects the returned promise with that message; the three
re-stat branches call the undefined identifier `reject`, which raises a
`ReferenceError` instead of delivering the intended error. -/
def multipartFinishCheck {α : Type} (before after : FileStats)
    (computedSize : Nat) (result : α) : PrepOutcome α :=
  if computedSize ≠ before.size then .rejected "File has a different number of bytes than was hashed"
  else if after.size ≠ before.size then .referenceError "reject"
  else if after.mtimeMs ≠ before.mtimeMs then .referenceError "reject"
  else if after.ino ≠ before.ino then .referenceError "reject"
  else .ok result

/-- C8 (code bug): the single-part path does reject with the detected
mismatch when the file's mtime changed during the read, but the
multi-part path — on exactly the same stats — raises a `ReferenceError`
for the out-of-scope identifier `reject`; no stat-mismatch branch of
the multipart checks can ever deliver its intended error. -/
theorem multipart_restat_reference_error :
    singlepartFinishCheck ⟨100, 1000, 42⟩ ⟨100, 2000, 42⟩ 100 "desc" =
      .rejected "File was modified during preperation" ∧
    multipartFinishCheck ⟨100, 1000, 42⟩ ⟨100, 2000, 42⟩ 100 "desc" =
      .referenceError "reject" ∧
    multipartFinishCheck ⟨100, 1000, 42⟩ ⟨50, 1000, 42⟩ 100 "desc" =
      .referenceError "reject" ∧
    multipartFinishCheck ⟨100, 1000, 42⟩ ⟨100, 1000, 43⟩ 100 "desc" =
      .referenceError "reject" ∧
    multipartFinishCheck ⟨100, 1000, 42⟩ ⟨100, 1000, 42⟩ 100 "desc" = .ok "desc" :=
  ⟨by decide, by decide, by decide, by decide, by decide⟩

/-! ### `prepareUpload` field assembly (C7) -/

/-- The value produced by the `__prepare*` call inside `prepareUpload`
(client.js lines 231–236): single-part results carry no `parts` list,
multipart results do. -/
structure PrepResult where
  filename : String
  sha256 : String
  size : Nat
  parts : Option (List PartDesc)
deriving DecidableEq, Repr

/-- The `__useMulti` dispatch of `prepareUpload` (client.js lines
232–236), with the mode decision abstracted as the boolean it returns. -/
def Client.prepare (hash : List Nat → String) (useMulti : Bool)
    (filename : String) (data : List Nat) (p : Nat) :
    Except String PrepResult :=
  if useMulti then
    (Client.prepareMultipartUpload hash filename data p).map
      (fun m => ⟨m.filename, m.sha256, m.size, some m.parts⟩)
  else
    .ok ⟨filename, hash data, data.length, none⟩

/-- The resolution value of `__compressFile` (client.js lines 286–295):
pre-compression digest/size, post-compression digest/size, the encoding
name, and the output file. -/
structure CompressionInfo where
  sha256 : String
  size : Nat
  transferSha256 : String
  transferSize : Nat
  contentEncoding : String
  filename : String
deriving DecidableEq, Repr

/-- `Client.__compressFile` (client.js lines 258–303): the input bytes
flow through a pre-compression digest, the gzip compressor, and a
post-compression digest into the output file. -/
def Client.compressFile (hash : List Nat → String) (gzip : List Nat → List Nat)
    (inputData : List Nat) (outputFilename : String) : CompressionInfo :=
  { sha256 := hash inputData
    size := inputData.length
    transferSha256 := hash (gzip inputData)
    transferSize := (gzip inputData).length
    contentEncoding := "gzip"
    filename := outputFilename }

/-- The Transfer Descriptor returned by `prepareUpload`.
`transferSha256`/`transferSize` are always set (client.js lines
245–250); `contentEncoding` is a field only the compression branch adds,
hence `Option` — per the data model an absent encoding means identity. -/
structure TransferDesc where
  filename : String
  sha256 : String
  size : Nat
  transferSha256 : String
  transferSize : Nat
  contentEncoding : Option String
  parts : Option (List PartDesc)
deriving DecidableEq, Repr

/-- The content encoding a Transfer Descriptor declares, reading an
absent field as `identity` as the data model specifies. -/
def effectiveContentEncoding (d : TransferDesc) : String :=
  d.contentEncoding.getD "identity"

/-- `Client.prepareUpload` (client.js lines 181–253): with identity
compression the file is prepared as-is and `transferSha256`/`transferSize`
are copied from `sha256`/`size` (lines 247–250); with gzip the compressed
scratch file is prepared and `Object.assign` overwrites the descriptor's
`filename`, `sha256`, `size`, `transferSha256`, `transferSize` and
`contentEncoding` with the compression info (line 246), keeping the
`parts` computed from the compressed file. -/
def Client.prepareUpload (hash : List Nat → String) (gzip : List Nat → List Nat)
    (filename scratchFilename : String) (data : List Nat) (compression : String)
    (useMulti : Bool) (p : Nat) : Except String TransferDesc :=
  if compression = "identity" then
    (Client.prepare hash useMulti filename data p).map (fun base =>
      { filename := base.filename, sha256 := base.sha256, size := base.size
        transferSha256 := base.sha256, transferSize := base.size
        contentEncoding := none, parts := base.parts })
  else
    let info := Client.compressFile hash gzip data scratchFilename
    (Client.prepare hash useMulti scratchFilename (gzip data) p).map (fun base =>
      { filename := info.filename, sha256 := info.sha256, size := info.size
        transferSha256 := info.transferSha256, transferSize := info.transferSize
        contentEncoding := some info.contentEncoding, parts := base.parts })

/-- A concrete digest function for closed evaluations: digests are
distinct whenever lengths differ, which is all the examples need. -/
def exHash : List Nat → String := fun l => "h" ++ toString l.length

/-- A concrete stand-in compressor for closed evaluations (prepends the
two gzip magic bytes). -/
def exGzip : List Nat → List Nat := fun l => 31 :: 139 :: l

/-- The descriptor Scenario A produces for the 1-byte file `[42]` with
identity encoding under `exHash`. -/
def scenarioADesc : TransferDesc :=
  { filename := "file", sha256 := "h1", size := 1, transferSha256 := "h1",
    transferSize := 1, contentEncoding := none, parts := none }

/-- C7: every Transfer Descriptor returned by `prepareUpload` carries
`transferSha256`/`transferSize` (they are unconditionally set fields of
the result); under identity compression they equal `sha256`/`size`
exactly, and the recorded content encoding is identity (the field is
absent, which the data model defines as identity) — in particular a
1-byte file with unspecified encoding yields
`transferSha256 = sha256` and `transferSize = size = 1`; under gzip,
`sha256`/`size` are the pre-compression digest/size,
`transferSha256`/`transferSize` the post-compression digest/size, and
the content encoding is recorded as gzip.  (Source: `src/src/client.js`
lines 240–252 and 286–302.) -/
theorem transfer_fields_invariant (hash : List Nat → String)
    (gzip : List Nat → List Nat) (filename scratchFilename : String)
    (data : List Nat) (useMulti : Bool) (p : Nat) :
    (∀ d : TransferDesc,
      Client.prepareUpload hash gzip filename scratchFilename data "identity" useMulti p = .ok d →
      d.transferSha256 = d.sha256 ∧ d.transferSize = d.size ∧
      d.contentEncoding = none ∧ effectiveContentEncoding d = "identity") ∧
    (∀ d : TransferDesc,
      Client.prepareUpload hash gzip filename scratchFilename data "gzip" useMulti p = .ok d →
      d.sha256 = hash data ∧ d.size = data.length ∧
      d.transferSha256 = hash (gzip data) ∧ d.transferSize = (gzip data).length ∧
      d.contentEncoding = some "gzip") ∧
    Client.prepareUpload exHash exGzip "file" "scratch" [42] "identity" false (25 * 1048576) =
      .ok scenarioADesc := by
  refine ⟨?_, ?_, rfl⟩
  · intro d hd
    unfold Client.prepareUpload at hd
    rw [if_pos rfl] at hd
    cases hprep : Client.prepare hash useMulti filename data p with
    | error e => rw [hprep] at hd; simp [Except.map] at hd
    | ok base =>
      rw [hprep] at hd
      simp only [Except.map, Except.ok.injEq] at hd
      subst hd
      exact ⟨rfl, rfl, rfl, rfl⟩
  · intro d hd
    unfold Client.prepareUpload at hd
    rw [if_neg (by decide)] at hd
    cases hprep : Client.prepare hash useMulti scratchFilename (gzip data) p with
    | error e => rw [hprep] at hd; simp [Except.map] at hd
    | ok base =>
      rw [hprep] at hd
      simp only [Except.map, Except.ok.injEq] at hd
      subst hd
      exact ⟨rfl, rfl, rfl, rfl, rfl⟩

/-- Witness for C7 at Scenario A: a 1-byte file, identity compression. -/
theorem transfer_fields_invariant_witness :
    Client.prepareUpload exHash exGzip "file" "scratch" [42] "identity" false 4 =
      .ok scenarioADesc ∧
    (scenarioADesc.transferSha256 = scenarioADesc.sha256 ∧
      scenarioADesc.transferSize = scenarioADesc.size ∧
      scenarioADesc.contentEncoding = none ∧
      effectiveContentEncoding scenarioADesc = "identity") :=
  ⟨rfl, (transfer_fields_invariant exHash exGzip "file" "scratch" [42] false 4).1
    scenarioADesc rfl⟩

/-! ## Upload Executor (`src/src/client.js`, `Client.runUpload`) and
schema validation (`src/src/schemas.js`)

`runUpload(request, upload)` first validates the upload descriptor
against the Joi schema (client.js lines 330–343): `sha256` and
`transferSha256` must satisfy `schemas.sha256` — a 64-character hex
string that must *not* match the anchored regex built from the SHA-256
digest of the empty string (schemas.js lines 44–50, an inverted-regex
rule the schema's own comment explains as "we cannot upload zero-length
files") — and `parts`, when present, must be a list of 1–10000 part
objects.  It then substitutes the transfer digest/size pair, defaults
`parts` for single-part uploads, validates every request's interchange
format, requires equal request/part counts, and finally runs the part
loop in order (lines 384–423), aborting on the first response with
status ≥ 300. -/

def KB : Nat := 1024
def MB : Nat := KB * 1024
def GB : Nat := MB * 1024
def TB : Nat := GB * 1024

/-- The SHA-256 digest of the empty byte string, the value interpolated
into the inverted regex of `schemas.sha256` (schemas.js line 50). -/
def emptySha256 : String :=
  "e3b0c44298fc1c149afbf4c8996fb92427ae41e4649b934ca495991b7852b855"

/-- Joi's `.hex()` character class (case-insensitive hex digits). -/
def isHexDigitChar (c : Char) : Bool :=
  c.isDigit || ('a' ≤ c && c ≤ 'f') || ('A' ≤ c && c ≤ 'F')

/-- `schemas.sha256` (schemas.js lines 49–50): hex, length 64, and the
inverted anchored regex `^<digest of empty string>` — for a 64-character
value, starting with the 64-character empty digest means equality with
it, and such values are rejected. -/
def schemaSha256Ok (s : String) : Bool :=
  s.data.all isHexDigitChar && s.data.length == 64 &&
    !(emptySha256.data.isPrefixOf s.data)

/-- A part object as accepted by `schemas.parts` (schemas.js lines
64–68); every field is optional in the Joi schema, but `sha256` is the
one the claims are about. -/
structure UploadPartDesc where
  sha256 : Option String
  size : Nat
  start : Nat
deriving DecidableEq, Repr

/-- The per-item checks of `schemas.parts` (schemas.js lines 64–68). -/
def partSchemaOk (pt : UploadPartDesc) : Bool :=
  (match pt.sha256 with
   | none => true
   | some s => schemaSha256Ok s) &&
  (pt.size ≤ 5 * GB) && (pt.start ≤ 5 * TB - 5 * GB)

/-- The upload descriptor accepted by `runUpload` (client.js lines
330–341). -/
structure UploadDesc where
  filename : String
  sha256 : String
  size : Nat
  transferSha256 : String
  transferSize : Nat
  contentEncoding : Option String
  parts : Option (List UploadPartDesc)
deriving DecidableEq, Repr

/-- The schema validation `runSchema(upload, ...)` performs at the top
of `runUpload` (client.js lines 330–343) on the fields the claims are
about: both digests must satisfy `schemas.sha256`, and a present `parts`
list must have 1–10000 entries each passing the part schema. -/
def uploadSchemaOk (u : UploadDesc) : Bool :=
  schemaSha256Ok u.sha256 && schemaSha256Ok u.transferSha256 &&
  (match u.parts with
   | none => true
   | some ps => 1 ≤ ps.length && ps.length ≤ 10000 && ps.all partSchemaOk)

/-- An interchange-format request (`src/src/interchange-format.js`). -/
structure InterchangeReq where
  url : String
  method : String
  headers : List (String × String)
deriving DecidableEq, Repr

/-- The accepted HTTP verbs of interchange-format.js lines 4–14. -/
def httpMethods : List String :=
  ["GET", "get", "HEAD", "head", "PUT", "put", "POST", "post", "PATCH", "patch",
   "DELETE", "delete", "OPTIONS", "options", "TRACE", "trace", "CONNECT", "connect"]

/-- `InterchangeFormat.validate` (interchange-format.js lines 17–29):
the url must match `^https?:`, the method must be one of the listed
verbs, and headers must be present (a structure field here). -/
def validInterchange (r : InterchangeReq) : Bool :=
  ("http:".data.isPrefixOf r.url.data || "https:".data.isPrefixOf r.url.data) &&
    httpMethods.contains r.method

/-- What one part upload's `runner.run` call produced, as observed by
the part loop: the response status, the `ETag` response header (absent
allowed), and the response body. -/
structure PartRunResult where
  statusCode : Nat
  etag : Option String
  body : String
deriving DecidableEq, Repr

/-- The failure modes of `runUpload`: schema rejection, the
`transferSha256`/`transferSize` pairing error (client.js line 357), an
invalid interchange request, a request/parts count mismatch (line 379),
or a part response with status ≥ 300 — which carries the failing
request's url, method and headers and the response body (lines
397–404). -/
inductive UploadError where
  | schemaError
  | transferPairMandatory
  | interchangeInvalid
  | countMismatch
  | requestFailed (url method : String) (headers : List (String × String)) (body : String)
deriving DecidableEq, Repr

/-- The ETag bookkeeping of client.js lines 406–420: a present, truthy
`etag` header is trimmed; a trimmed-empty or absent value becomes the
`'NOETAG'` sentinel. -/
def etagOrDefault (e : Option String) : String :=
  match e with
  | none => "NOETAG"
  | some s => if s = "" then "NOETAG" else (if s.trim = "" then "NOETAG" else s.trim)

/-- The truthiness test `transferSha256 && transferSize` of client.js
line 353 (an empty string and the number 0 are falsy). -/
def descTransferPair (u : UploadDesc) : Bool :=
  (u.transferSha256 != "") && (u.transferSize != 0)

/-- `_sha256` of client.js lines 351–355. -/
def descSha256 (u : UploadDesc) : String :=
  if descTransferPair u then u.transferSha256 else u.sha256

/-- `_size` of client.js lines 352–355. -/
def descSize (u : UploadDesc) : Nat :=
  if descTransferPair u then u.transferSize else u.size

/-- The parts list after the single-part defaulting of client.js lines
364–366. -/
def uploadParts (u : UploadDesc) : List UploadPartDesc :=
  match u.parts with
  | some ps => ps
  | none => [{ sha256 := some (descSha256 u), size := descSize u, start := 0 }]

/-- The part loop of `runUpload` (client.js lines 384–423), with the
outcome of each part's `runner.run` call abstracted as an oracle
indexed by part position.  Returns the list of part indices actually
executed together with either the first ≥ 300 failure or the
accumulated `(etags, responses)` pair. -/
def runUploadLoop (results : Nat → PartRunResult) :
    List InterchangeReq → Nat →
    List Nat × Except UploadError (List String × List PartRunResult)
  | [], _ => ([], .ok ([], []))
  | req :: rest, n =>
    let r := results n
    if 300 ≤ r.statusCode then
      ([n], .error (.requestFailed req.url req.method req.headers r.body))
    else
      let out := runUploadLoop results rest (n + 1)
      (n :: out.1,
        match out.2 with
        | .error e => .error e
        | .ok (etags, resps) => .ok (etagOrDefault r.etag :: etags, r :: resps))

/-- `Client.runUpload` (client.js lines 329–424): schema validation,
transfer-pair substitution, interchange validation, count check, then
the part loop.  The first component lists the part indices whose
requests were actually run — empty for every pre-loop rejection, i.e.
rejection before any network I/O. -/
def Client.runUpload (results : Nat → PartRunResult) (reqs : List InterchangeReq)
    (u : UploadDesc) :
    List Nat × Except UploadError (List String × List PartRunResult) :=
  if ¬ uploadSchemaOk u then ([], .error .schemaError)
  else if ((u.transferSha256 != "") || (u.transferSize != 0)) && !descTransferPair u then
    ([], .error .transferPairMandatory)
  else if ¬ reqs.all validInterchange then ([], .error .interchangeInvalid)
  else if reqs.length ≠ (uploadParts u).length then ([], .error .countMismatch)
  else runUploadLoop results reqs 0

lemma schemaSha256Ok_ne_empty (s : String) (h : schemaSha256Ok s = true) :
    s ≠ "" := by
  intro hs
  subst hs
  simp [schemaSha256Ok] at h

/-- Default element for `List.getD` on response lists. -/
def defaultPartRunResult : PartRunResult := { statusCode := 0, etag := none, body := "" }

/-- When every part's response status is below 300, the part loop runs
every part in positional order and accumulates index-aligned etags and
responses. -/
lemma runUploadLoop_ok (results : Nat → PartRunResult) :
    ∀ (reqs : List InterchangeReq) (n : Nat),
    (∀ i, i < reqs.length → (results (n + i)).statusCode < 300) →
    ∃ etags resps,
      runUploadLoop results reqs n = (List.range' n reqs.length, .ok (etags, resps)) ∧
      etags.length = reqs.length ∧ resps.length = reqs.length ∧
      (∀ i, i < reqs.length →
        resps.getD i defaultPartRunResult = results (n + i) ∧
        etags.getD i "" = etagOrDefault (results (n + i)).etag) := by
  intro reqs
  induction reqs with
  | nil =>
    intro n _
    exact ⟨[], [], by simp [runUploadLoop], rfl, rfl, by intro i hi; simp at hi⟩
  | cons req rest ih =>
    intro n hok
    have h0 : (results n).statusCode < 300 := by simpa using hok 0 (by simp)
    have hrest : ∀ i, i < rest.length → (results (n + 1 + i)).statusCode < 300 := by
      intro i hi
      have h := hok (i + 1) (by simp; omega)
      have heq : n + (i + 1) = n + 1 + i := by omega
      rwa [heq] at h
    obtain ⟨etags, resps, hloop, hel, hrl, hpt⟩ := ih (n + 1) hrest
    refine ⟨etagOrDefault (results n).etag :: etags, results n :: resps, ?_, ?_, ?_, ?_⟩
    · rw [runUploadLoop, if_neg (by omega), hloop]
      simp only [List.length_cons, List.range'_succ]
    · simp [hel]
    · simp [hrl]
    · intro i hi
      cases i with
      | zero => simp
      | succ i =>
        have hi2 : i < rest.length := by simpa using hi
        have heq : n + (i + 1) = n + 1 + i := by omega
        rw [heq]
        simpa using hpt i hi2

/-- When part `k` is the first whose response status is ≥ 300, the part
loop runs exactly parts `n .. n+k`, then stops with the failure
carrying request `k`'s url, method and headers and response `k`'s
body. -/
lemma runUploadLoop_err (results : Nat → PartRunResult) :
    ∀ (reqs : List InterchangeReq) (k n : Nat) (hk : k < reqs.length),
    (∀ i, i < k → (results (n + i)).statusCode < 300) →
    300 ≤ (results (n + k)).statusCode →
    runUploadLoop results reqs n =
      (List.range' n (k + 1),
       .error (.requestFailed (reqs[k]).url (reqs[k]).method (reqs[k]).headers
         (results (n + k)).body)) := by
  intro reqs
  induction reqs with
  | nil => intro k n hk; simp at hk
  | cons req rest ih =>
    intro k n hk hbefore hfail
    cases k with
    | zero =>
      rw [runUploadLoop, if_pos (by simpa using hfail)]
      simp
    | succ k =>
      have h0 : (results n).statusCode < 300 := by simpa using hbefore 0 (by omega)
      have hbefore2 : ∀ i, i < k → (results (n + 1 + i)).statusCode < 300 := by
        intro i hi
        have h := hbefore (i + 1) (by omega)
        have heq : n + (i + 1) = n + 1 + i := by omega
        rwa [heq] at h
      have hfail2 : 300 ≤ (results (n + 1 + k)).statusCode := by
        have heq : n + (k + 1) = n + 1 + k := by omega
        rwa [heq] at hfail
      have hk2 : k < rest.length := by simpa using hk
      rw [runUploadLoop, if_neg (by omega), ih k (n + 1) hk2 hbefore2 hfail2]
      have heq : n + (k + 1) = n + 1 + k := by omega
      rw [heq]
      simp [List.range'_succ]

/-- C9: during `runUpload` parts are executed strictly in the order of
the `parts` array (indices `0, 1, 2, ...`); if part `k` is the first
whose response status is ≥ 300, the upload stops there with an error
carrying that request's url, method and headers and the response body —
parts after `k` are never attempted and no `(etags, responses)` pair is
returned; and when every part succeeds, the returned `etags` and
`responses` are index-aligned with the parts.  (Source:
`src/src/client.js` lines 384–423.) -/
theorem upload_sequential_fail_fast (results : Nat → PartRunResult)
    (reqs : List InterchangeReq) (u : UploadDesc)
    (hschema : uploadSchemaOk u = true) (hts : u.transferSize ≠ 0)
    (hvalid : reqs.all validInterchange = true)
    (hcount : reqs.length = (uploadParts u).length) :
    Client.runUpload results reqs u = runUploadLoop results reqs 0 ∧
    ((∀ i, i < reqs.length → (results i).statusCode < 300) →
      ∃ etags resps,
        Client.runUpload results reqs u = (List.range' 0 reqs.length, .ok (etags, resps)) ∧
        etags.length = reqs.length ∧ resps.length = reqs.length ∧
        (∀ i, i < reqs.length →
          resps.getD i defaultPartRunResult = results i ∧
          etags.getD i "" = etagOrDefault (results i).etag)) ∧
    (∀ k : Nat, (hk : k < reqs.length) →
      (∀ i, i < k → (results i).statusCode < 300) →
      300 ≤ (results k).statusCode →
      Client.runUpload results reqs u =
        (List.range' 0 (k + 1),
         .error (.requestFailed (reqs[k]).url (reqs[k]).method (reqs[k]).headers
           (results k).body))) := by
  have hpair : descTransferPair u = true := by
    have h1 : u.transferSha256 ≠ "" :=
      schemaSha256Ok_ne_empty u.transferSha256 (by
        simp [uploadSchemaOk] at hschema
        exact hschema.1.2)
    simp [descTransferPair, h1, hts]
  have hrw : Client.runUpload results reqs u = runUploadLoop results reqs 0 := by
    unfold Client.runUpload
    rw [if_neg (by simp [hschema]), if_neg (by simp [hpair]), if_neg (by simp [hvalid]),
      if_neg (by omega)]
  refine ⟨hrw, ?_, ?_⟩
  · intro hok
    obtain ⟨etags, resps, hloop, hel, hrl, hpt⟩ :=
      runUploadLoop_ok results reqs 0 (by intro i hi; simpa using hok i hi)
    refine ⟨etags, resps, by rw [hrw]; exact hloop, hel, hrl, ?_⟩
    intro i hi
    simpa using hpt i hi
  · intro k hk hbefore hfail
    rw [hrw]
    have h := runUploadLoop_err results reqs k 0 hk
      (by intro i hi; simpa using hbefore i hi) (by simpa using hfail)
    simpa using h

/-- C10: any upload descriptor whose `sha256`, `transferSha256`, or any
part's `sha256` equals the SHA-256 digest of the empty byte string is
rejected by the schema validation at the top of `runUpload`, before any
part request is run (the attempted-parts list is empty): zero-length
files and zero-length parts can never be uploaded.  (Source:
`src/src/schemas.js` lines 44–68 and `src/src/client.js` lines
330–343.) -/
theorem empty_digest_never_uploaded (results : Nat → PartRunResult)
    (reqs : List InterchangeReq) (u : UploadDesc)
    (h : u.sha256 = emptySha256 ∨ u.transferSha256 = emptySha256 ∨
      (∃ ps, u.parts = some ps ∧ ∃ pt ∈ ps, pt.sha256 = some emptySha256)) :
    Client.runUpload results reqs u = ([], .error .schemaError) := by
  have hempty : schemaSha256Ok emptySha256 = false := by decide
  have hbad : uploadSchemaOk u = false := by
    rcases h with h | h | ⟨ps, hps, pt, hpt, hsha⟩
    · simp [uploadSchemaOk, h, hempty]
    · simp [uploadSchemaOk, h, hempty]
    · have hall : ps.all partSchemaOk = false := by
        have hne : ¬ ps.all partSchemaOk = true := by
          intro hall
          have hp := List.all_eq_true.mp hall pt hpt
          rw [partSchemaOk, hsha] at hp
          simp [hempty] at hp
        simpa using hne
      simp [uploadSchemaOk, hps, hall]
  unfold Client.runUpload
  rw [if_pos (by simp [hbad])]

/-- A valid (non-empty) 64-character hex digest for closed examples. -/
def onesSha256 : String := String.mk (List.replicate 64 '1')

/-- A schema-valid single-part upload descriptor. -/
def uGood : UploadDesc :=
  { filename := "f", sha256 := onesSha256, size := 1, transferSha256 := onesSha256,
    transferSize := 1, contentEncoding := none, parts := none }

/-- A descriptor for a zero-length file: both digests are the digest of
the empty string. -/
def uEmpty : UploadDesc :=
  { filename := "f", sha256 := emptySha256, size := 0, transferSha256 := emptySha256,
    transferSize := 0, contentEncoding := none, parts := none }

/-- One valid pre-signed request. -/
def reqsGood : List InterchangeReq :=
  [{ url := "https://bucket.s3.amazonaws.com/key", method := "PUT", headers := [] }]

/-- A part oracle that always answers 200 with no ETag header. -/
def resultsGood : Nat → PartRunResult :=
  fun _ => { statusCode := 200, etag := none, body := "ok" }

/-- Witness for C9: a schema-valid single-part upload against an
endpoint answering 200. -/
theorem upload_sequential_fail_fast_witness :
    (uploadSchemaOk uGood = true ∧ uGood.transferSize ≠ 0 ∧
      reqsGood.all validInterchange = true ∧
      reqsGood.length = (uploadParts uGood).length) ∧
    (Client.runUpload resultsGood reqsGood uGood = runUploadLoop resultsGood reqsGood 0 ∧
      ((∀ i, i < reqsGood.length → (resultsGood i).statusCode < 300) →
        ∃ etags resps,
          Client.runUpload resultsGood reqsGood uGood =
            (List.range' 0 reqsGood.length, .ok (etags, resps)) ∧
          etags.length = reqsGood.length ∧ resps.length = reqsGood.length ∧
          (∀ i, i < reqsGood.length →
            resps.getD i defaultPartRunResult = resultsGood i ∧
            etags.getD i "" = etagOrDefault (resultsGood i).etag)) ∧
      (∀ k : Nat, (hk : k < reqsGood.length) →
        (∀ i, i < k → (resultsGood i).statusCode < 300) →
        300 ≤ (resultsGood k).statusCode →
        Client.runUpload resultsGood reqsGood uGood =
          (List.range' 0 (k + 1),
           .error (.requestFailed (reqsGood[k]).url (reqsGood[k]).method
             (reqsGood[k]).headers (resultsGood k).body)))) :=
  ⟨⟨by decide, by decide, by decide, by decide⟩,
    upload_sequential_fail_fast resultsGood reqsGood uGood (by decide) (by decide)
      (by decide) (by decide)⟩

/-- Witness for C10: the zero-length-file descriptor is rejected by
schema validation with no part request run. -/
theorem empty_digest_never_uploaded_witness :
    (uEmpty.sha256 = emptySha256 ∨ uEmpty.transferSha256 = emptySha256 ∨
      (∃ ps, uEmpty.parts = some ps ∧ ∃ pt ∈ ps, pt.sha256 = some emptySha256)) ∧
    Client.runUpload resultsGood reqsGood uEmpty = ([], .error .schemaError) :=
  ⟨Or.inl rfl, empty_digest_never_uploaded resultsGood reqsGood uEmpty (Or.inl rfl)⟩

/-! ## Download Executor (`src/lib/client.js`, `Client.runDownload`)

`runDownload` first validates the response's metadata headers (lines
470–525), then pipes the body through a pre-decompression digest, the
decompressor, and a post-decompression digest into the output sink, and
on the output stream's `finish` event compares digests and sizes
against the expectations (lines 536–561).

Header values are modelled as `Option String` (`none` = header absent;
JavaScript treats both `undefined` and the empty string as falsy).
The source wraps each `parseInt` call in `try`/`catch` and pushes a
"... is not an integer" error from the `catch` — but JavaScript's
`parseInt` never throws (it returns `NaN` for non-numeric input), so
those three catch blocks are dead code and contribute no header error;
the model therefore has no non-numeric branch.  A `NaN` produced this
way is modelled downstream as a `none` expectation, which every
comparison reports as a mismatch, matching `NaN`'s inequality
semantics. -/

/-- The response headers read by `runDownload` (lib/client.js lines
470–475). -/
structure DownloadHeaders where
  contentEncoding : Option String
  contentLength : Option String
  transferSha256 : Option String
  contentSha256 : Option String
  transferLength : Option String
  contentLengthMeta : Option String
deriving DecidableEq, Repr

/-- JavaScript falsiness of a possibly-absent header string. -/
def isFalsy (v : Option String) : Bool :=
  match v with
  | none => true
  | some s => s = ""

/-- The `headerErrors` list built by lib/client.js lines 480–518, in
source order: the content-encoding validity check, the six absence
checks, and nothing from the three dead `parseInt` catch blocks. -/
def headerErrors (h : DownloadHeaders) : List String :=
  (if !(isFalsy h.contentEncoding) &&
      (h.contentEncoding.getD "" != "gzip") && (h.contentEncoding.getD "" != "identity")
   then ["Content-Encoding is specified with invalid value"] else []) ++
  (if isFalsy h.contentLength then ["Content-Length is mandatory but absent"] else []) ++
  (if isFalsy h.transferSha256 then ["Transfer-Sha256 is mandatory but absent"] else []) ++
  (if isFalsy h.contentSha256 then ["Content-Sha256 is mandatory but absent"] else []) ++
  (if isFalsy h.transferLength then ["Transfer-Size is mandatory but absent"] else []) ++
  (if isFalsy h.contentLengthMeta then ["Content-Size is mandatory but absent"] else [])

/-- The header-validation gate of lib/client.js lines 520–525: reject
with the batched error list when it is non-empty, otherwise continue to
streaming. -/
def headerValidation (h : DownloadHeaders) : Except (List String) Unit :=
  if 0 < (headerErrors h).length then .error (headerErrors h) else .ok ()

/-- All metadata headers present but `content-length` non-numeric. -/
def allPresentHeaders : DownloadHeaders :=
  { contentEncoding := some "gzip", contentLength := some "notanumber",
    transferSha256 := some "e3b0", contentSha256 := some "e3b1",
    transferLength := some "17", contentLengthMeta := some "9" }

/-- Every metadata header absent. -/
def allAbsentHeaders : DownloadHeaders :=
  { contentEncoding := none, contentLength := none, transferSha256 := none,
    contentSha256 := none, transferLength := none, contentLengthMeta := none }

/-- C6 (code bug): absent headers are indeed collected into one batched
error listing every violation — but a present, non-numeric
`content-length` passes header validation untouched, because
JavaScript's `parseInt` returns `NaN` instead of throwing and the
source's "... is not an integer" errors live in unreachable `catch`
blocks (lib/client.js lines 502–518); no header error ever names a
non-integer, contradicting the claim that non-numeric values are
batched into the header-validation rejection before any byte is
written. -/
theorem header_validation_missing_parseInt_bug :
    headerValidation allPresentHeaders = .ok () ∧
    (∀ msg ∈ headerErrors allPresentHeaders, msg ≠ "Content-Length is not an integer") ∧
    headerValidation allAbsentHeaders = .error
      ["Content-Length is mandatory but absent", "Transfer-Sha256 is mandatory but absent",
       "Content-Sha256 is mandatory but absent", "Transfer-Size is mandatory but absent",
       "Content-Size is mandatory but absent"] :=
  ⟨rfl, by decide, rfl⟩

/-- The final state of a `DigestStream` when its input ends: digest and
byte count of everything that flowed through it. -/
structure DigestResult where
  hash : String
  size : Nat
deriving DecidableEq, Repr

/-- A JavaScript `!==` comparison between a digest-stream byte count
and an expected size that may be `NaN` (modelled `none`): `NaN` differs
from everything. -/
def numMismatch (actual : Nat) (expected : Option Nat) : Bool :=
  match expected with
  | some e => actual != e
  | none => true

lemma numMismatch_iff (actual : Nat) (expected : Option Nat) :
    numMismatch actual expected = true ↔ expected ≠ some actual := by
  cases expected with
  | none => simp [numMismatch]
  | some x =>
    simp only [numMismatch, bne_iff_ne, ne_eq, Option.some.injEq]
    exact ⟨fun h hx => h hx.symm, fun h hx => h hx.symm⟩

/-- The `bodyErrors` list built in the output stream's `finish` handler
(lib/client.js lines 536–552), in source order: pre-decompression
digest vs expected transfer digest, post-decompression digest vs
expected content digest, pre-decompression size vs expected transfer
size, post-decompression size vs expected content size, and
pre-decompression size vs the declared `content-length`. -/
def bodyErrors (pre post : DigestResult)
    (expectedTransferSha256 expectedSha256 : String)
    (expectedTransferSize expectedSize contentLength : Option Nat) : List String :=
  (if pre.hash ≠ expectedTransferSha256 then ["Transfer Sha256 mismatch"] else []) ++
  (if post.hash ≠ expectedSha256 then ["Content Sha256 mismatch"] else []) ++
  (if numMismatch pre.size expectedTransferSize then ["Transfer Size mismatch"] else []) ++
  (if numMismatch post.size expectedSize then ["Content Size mismatch"] else []) ++
  (if numMismatch pre.size contentLength
   then ["Content-Length header and Transfer-Size do not match"] else [])

/-- The resolution decision of the `finish` handler (lib/client.js
lines 553–560): reject with the single batched error when any check
failed, otherwise resolve. -/
def finishDownload (pre post : DigestResult)
    (expectedTransferSha256 expectedSha256 : String)
    (expectedTransferSize expectedSize contentLength : Option Nat) :
    Except (List String) Unit :=
  if 0 < (bodyErrors pre post expectedTransferSha256 expectedSha256
      expectedTransferSize expectedSize contentLength).length
  then .error (bodyErrors pre post expectedTransferSha256 expectedSha256
      expectedTransferSize expectedSize contentLength)
  else .ok ()

/-- C4: on download completion the five comparisons are made, the
download resolves exactly when all of them pass — a download with any
failed check is never reported successful — and each failed check
contributes its message to the single batched error, so the error lists
every failed check; in particular a mismatching transfer digest rejects
with an error naming "Transfer Sha256 mismatch".  (Source:
`src/lib/client.js` lines 536–561.) -/
theorem download_integrity_checks (pre post : DigestResult)
    (eTS eS : String) (eTSz eSz cl : Option Nat) :
    (finishDownload pre post eTS eS eTSz eSz cl = .ok () ↔
      (pre.hash = eTS ∧ post.hash = eS ∧ eTSz = some pre.size ∧
        eSz = some post.size ∧ cl = some pre.size)) ∧
    (pre.hash ≠ eTS → ∃ es, finishDownload pre post eTS eS eTSz eSz cl = .error es ∧
      "Transfer Sha256 mismatch" ∈ es) ∧
    (post.hash ≠ eS → ∃ es, finishDownload pre post eTS eS eTSz eSz cl = .error es ∧
      "Content Sha256 mismatch" ∈ es) ∧
    (eTSz ≠ some pre.size → ∃ es, finishDownload pre post eTS eS eTSz eSz cl = .error es ∧
      "Transfer Size mismatch" ∈ es) ∧
    (eSz ≠ some post.size → ∃ es, finishDownload pre post eTS eS eTSz eSz cl = .error es ∧
      "Content Size mismatch" ∈ es) ∧
    (cl ≠ some pre.size → ∃ es, finishDownload pre post eTS eS eTSz eSz cl = .error es ∧
      "Content-Length header and Transfer-Size do not match" ∈ es) := by
  by_cases h1 : pre.hash = eTS <;> by_cases h2 : post.hash = eS <;>
    by_cases h3 : eTSz = some pre.size <;> by_cases h4 : eSz = some post.size <;>
    by_cases h5 : cl = some pre.size <;>
    simp [finishDownload, bodyErrors, numMismatch_iff, h1, h2, h3, h4, h5]

/-- Witness for C4 at Scenario E: a gzip-encoded object whose declared
transfer digest `"aaaa"` does not match the digest `"bbbb"` of the
bytes actually received — the download rejects with an error naming
"Transfer Sha256 mismatch". -/
theorem download_integrity_checks_witness :
    (DigestResult.mk "bbbb" 17).hash ≠ "aaaa" ∧
    (∃ es, finishDownload ⟨"bbbb", 17⟩ ⟨"cccc", 40⟩ "aaaa" "cccc" (some 17) (some 40)
        (some 17) = .error es ∧ "Transfer Sha256 mismatch" ∈ es) :=
  ⟨by decide,
    (download_integrity_checks ⟨"bbbb", 17⟩ ⟨"cccc", 40⟩ "aaaa" "cccc" (some 17) (some 40)
      (some 17)).2.1 (by decide)⟩
